import Mathlib

/-!
Verification of the Wyze plugin control plane (src/wyze_plugin.py).

The plugin is a line-delimited JSON-RPC dispatcher (class WyzePlugin together
with run_jsonrpc).  The model below is a shallow embedding: JSON values are an
inductive type, the mutable plugin object is an explicit state record, the
external collaborators reached from the initialize handler (TUTK library
download and the Wyze login) are an explicit environment, and the stdin loop
is a function over a list of already-lexed input lines.  Wall-clock time
(time.strftime of the current time) is passed as an explicit string parameter.
-/

namespace Wyze

/-- A JSON value, as produced by json.loads.  Objects are association lists;
a parsed object has key-unique fields (json.loads keeps the last duplicate),
so first-key lookup below agrees with Python dict lookup on parsed input. -/
inductive JVal where
  | null
  | bool (b : Bool)
  | num (n : Int)
  | str (s : String)
  | arr (elems : List JVal)
  | obj (fields : List (String × JVal))

mutual
/-- Structural boolean equality of JSON values. -/
def JVal.beq : JVal → JVal → Bool
  | .null, .null => true
  | .bool a, .bool b => a == b
  | .num a, .num b => a == b
  | .str a, .str b => a == b
  | .arr a, .arr b => JVal.beqList a b
  | .obj a, .obj b => JVal.beqFields a b
  | _, _ => false

def JVal.beqList : List JVal → List JVal → Bool
  | [], [] => true
  | a :: as, b :: bs => JVal.beq a b && JVal.beqList as bs
  | _, _ => false

def JVal.beqFields : List (String × JVal) → List (String × JVal) → Bool
  | [], [] => true
  | a :: as, b :: bs => (a.1 == b.1 && JVal.beq a.2 b.2) && JVal.beqFields as bs
  | _, _ => false
end

instance : BEq JVal := ⟨JVal.beq⟩

mutual
theorem JVal.beq_refl : ∀ a : JVal, JVal.beq a a = true
  | .null => rfl
  | .bool b => by simp [JVal.beq]
  | .num n => by simp [JVal.beq]
  | .str s => by simp [JVal.beq]
  | .arr elems => by rw [JVal.beq]; exact JVal.beqList_refl elems
  | .obj fields => by rw [JVal.beq]; exact JVal.beqFields_refl fields

theorem JVal.beqList_refl : ∀ l : List JVal, JVal.beqList l l = true
  | [] => rfl
  | v :: rest => by
    rw [JVal.beqList, JVal.beq_refl v, JVal.beqList_refl rest]; rfl

theorem JVal.beqFields_refl : ∀ l : List (String × JVal), JVal.beqFields l l = true
  | [] => rfl
  | p :: rest => by
    rw [JVal.beqFields, JVal.beq_refl p.2, JVal.beqFields_refl rest, beq_self_eq_true]; rfl
end

mutual
theorem JVal.eq_of_beq : ∀ a b : JVal, JVal.beq a b = true → a = b
  | .null, .null, _ => rfl
  | .bool a, .bool b, h => by rw [JVal.beq] at h; rw [(beq_iff_eq ..).mp h]
  | .num a, .num b, h => by rw [JVal.beq] at h; rw [(beq_iff_eq ..).mp h]
  | .str a, .str b, h => by rw [JVal.beq] at h; rw [(beq_iff_eq ..).mp h]
  | .arr a, .arr b, h => by
    rw [JVal.beq] at h; rw [JVal.eqList_of_beq a b h]
  | .obj a, .obj b, h => by
    rw [JVal.beq] at h; rw [JVal.eqFields_of_beq a b h]
  | .null, .bool _, h | .null, .num _, h | .null, .str _, h
  | .null, .arr _, h | .null, .obj _, h
  | .bool _, .null, h | .bool _, .num _, h | .bool _, .str _, h
  | .bool _, .arr _, h | .bool _, .obj _, h
  | .num _, .null, h | .num _, .bool _, h | .num _, .str _, h
  | .num _, .arr _, h | .num _, .obj _, h
  | .str _, .null, h | .str _, .bool _, h | .str _, .num _, h
  | .str _, .arr _, h | .str _, .obj _, h
  | .arr _, .null, h | .arr _, .bool _, h | .arr _, .num _, h
  | .arr _, .str _, h | .arr _, .obj _, h
  | .obj _, .null, h | .obj _, .bool _, h | .obj _, .num _, h
  | .obj _, .str _, h | .obj _, .arr _, h => nomatch h

theorem JVal.eqList_of_beq : ∀ a b : List JVal, JVal.beqList a b = true → a = b
  | [], [], _ => rfl
  | [], _ :: _, h => nomatch h
  | _ :: _, [], h => nomatch h
  | a :: as, b :: bs, h => by
    rw [JVal.beqList, Bool.and_eq_true] at h
    rw [JVal.eq_of_beq a b h.1, JVal.eqList_of_beq as bs h.2]

theorem JVal.eqFields_of_beq :
    ∀ a b : List (String × JVal), JVal.beqFields a b = true → a = b
  | [], [], _ => rfl
  | [], _ :: _, h => nomatch h
  | _ :: _, [], h => nomatch h
  | a :: as, b :: bs, h => by
    rw [JVal.beqFields, Bool.and_eq_true, Bool.and_eq_true] at h
    have h1 : a.1 = b.1 := (beq_iff_eq ..).mp h.1.1
    have h2 : a.2 = b.2 := JVal.eq_of_beq a.2 b.2 h.1.2
    rw [JVal.eqFields_of_beq as bs h.2, Prod.ext_iff.mpr ⟨h1, h2⟩]
end

instance : DecidableEq JVal := fun a b =>
  if h : JVal.beq a b = true then isTrue (JVal.eq_of_beq a b h)
  else isFalse (fun hc => h (hc ▸ JVal.beq_refl a))

instance : LawfulBEq JVal :=
  ⟨fun h => JVal.eq_of_beq _ _ h, fun {a} => JVal.beq_refl a⟩

/-- Python truthiness of a JSON value (bool(v)). -/
def jTruthy : JVal → Bool
  | .null => false
  | .bool b => b
  | .num n => n != 0
  | .str s => s != ""
  | .arr elems => elems != []
  | .obj fields => fields != []

/-- Dictionary lookup v[key] / v.get(key) for an object value; none when the
key is absent or the value is not an object. -/
def jget (v : JVal) (key : String) : Option JVal :=
  match v with
  | .obj fields => fields.lookup key
  | _ => none

/-- The key list of an object value, in insertion order (list(d.keys())). -/
def jfields : JVal → List String
  | .obj fields => fields.map Prod.fst
  | _ => []

/-- The Python type name of a JSON value (used in AttributeError messages). -/
def pyTypeName : JVal → String
  | .null => "NoneType"
  | .bool _ => "bool"
  | .num _ => "int"
  | .str _ => "str"
  | .arr _ => "list"
  | .obj _ => "dict"

mutual
/-- Python repr of a JSON value (as used by str() on containers). -/
def pyRepr : JVal → String
  | .null => "None"
  | .bool true => "True"
  | .bool false => "False"
  | .num n => toString n
  | .str s => "\x27" ++ s ++ "\x27"
  | .arr elems => "[" ++ String.intercalate ", " (pyReprList elems) ++ "]"
  | .obj fields => "\x7b" ++ String.intercalate ", " (pyReprFields fields) ++ "\x7d"

def pyReprList : List JVal → List String
  | [] => []
  | v :: rest => pyRepr v :: pyReprList rest

def pyReprFields : List (String × JVal) → List String
  | [] => []
  | p :: rest => ("\x27" ++ p.1 ++ "\x27: " ++ pyRepr p.2) :: pyReprFields rest
end

/-- Python str of a JSON value, as interpolated by an f-string. -/
def pyStr (v : JVal) : String :=
  match v with
  | .str s => s
  | other => pyRepr other

/-- Python == between a dict entry value and an optional value (params.get
result, None for a missing key).  Entry values compared here are always
strings, for which Python == coincides with structural equality; None never
equals a JSON scalar. -/
def pyEqOpt (a b : Option JVal) : Bool :=
  match a, b with
  | some x, some y => decide (x = y)
  | _, _ => false

/-- Python params.get(key): the fields when params is a dict, an
AttributeError (message of str(e)) when it is any other parsed value. -/
def pyParamGet (params : JVal) (key : String) : Except String (Option JVal) :=
  match params with
  | .obj fields => .ok (fields.lookup key)
  | other => .error ("\x27" ++ pyTypeName other ++ "\x27 object has no attribute \x27get\x27")

/-- One wyzecam.WyzeCamera as used by the plugin: only the attributes the
plugin reads.  Optional fields model attributes that may be absent or None
(the source reads them through getattr / hasattr). -/
structure Camera where
  mac : String
  nickname : String
  product_model : String
  ip : Option String
  audio : Option Bool
  firmware_ver : Option String
deriving DecidableEq

/-- WyzeAuth: authentication state plus the camera inventory, a dict keyed by
camera mac (login inserts self.cameras[camera.mac] = camera, so keys are
unique and equal the mac of the stored camera).  auth_info and account are
Optional credential objects; only their presence is observable here. -/
structure WyzeAuth where
  auth_info : Option Unit
  account : Option Unit
  cameras : List (String × Camera)
deriving DecidableEq

/-- The mutable state of one WyzePlugin object. -/
structure WyzePlugin where
  config : JVal
  auth : Option WyzeAuth
  tutk_lib : Option String
  running : Bool
deriving DecidableEq

/-- WyzePlugin.__init__. -/
def WyzePlugin.start : WyzePlugin :=
  { config := .obj [], auth := none, tutk_lib := none, running := true }

/-- Outcomes of the external collaborators reached from the initialize
handler: get_tutk_library() (none models a failed download), and
WyzeAuth(config).login() (on an exception the error carries the message and
the partially mutated WyzeAuth object left in self.auth). -/
structure Env where
  tutk_lib : Option String
  login : Except (String × WyzeAuth) WyzeAuth

/-- PLUGIN_DIR: the absolute directory of the plugin file.  Environment
dependent; no claim depends on its concrete value. -/
def PLUGIN_DIR : String := "/opt/spatialnvr/plugins/wyze"

/-- VENV_PYTHON = os.path.join(PLUGIN_DIR, venv/bin/python3). -/
def VENV_PYTHON : String := PLUGIN_DIR ++ "/venv/bin/python3"

/-- os.path.abspath(__file__) of the plugin script. -/
def plugin_path : String := PLUGIN_DIR ++ "/wyze_plugin.py"

/-- The exec stream URL built in list_cameras and add_camera. -/
def stream_url (mac : String) : String :=
  "exec:" ++ VENV_PYTHON ++ " " ++ plugin_path ++ " stream " ++ mac ++ "#video=h264"

/-- WyzePlugin._get_capabilities. -/
def get_capabilities (camera : Camera) : List String :=
  ["video"] ++ (if camera.audio.getD false then ["audio"] else []) ++
    (if (["WYZECP1", "HL_PAN2", "HL_PAN3"] : List String).contains camera.product_model
      then ["ptz"] else [])

/-- The capabilities entry as a JSON value. -/
def jcaps (camera : Camera) : JVal :=
  .arr ((get_capabilities camera).map JVal.str)

/-- One element of the list_cameras result (source lines 421-433); mac is the
dict key used for the stream URL, the id field is camera.mac. -/
def camera_entry (now : String) (mac : String) (camera : Camera) : JVal :=
  .obj [("id", .str camera.mac), ("plugin_id", .str "wyze"),
    ("name", .str camera.nickname), ("model", .str camera.product_model),
    ("host", .str (camera.ip.getD "")), ("main_stream", .str (stream_url mac)),
    ("sub_stream", .str ""), ("snapshot_url", .str ""),
    ("capabilities", jcaps camera), ("online", .bool true),
    ("last_seen", .str now)]

/-- One element of the discover_cameras result (source lines 386-394). -/
def discover_entry (camera : Camera) : JVal :=
  .obj [("id", .str camera.mac), ("name", .str camera.nickname),
    ("model", .str camera.product_model), ("manufacturer", .str "Wyze"),
    ("capabilities", jcaps camera),
    ("firmware_version", .str (camera.firmware_ver.getD "")),
    ("serial", .str camera.mac)]

/-- The add_camera result object (source lines 456-469); name is the raw
optional JSON parameter, replacing the nickname when truthy. -/
def add_entry (now : String) (mac : String) (name : Option JVal) (camera : Camera) : JVal :=
  .obj [("id", .str camera.mac), ("plugin_id", .str "wyze"),
    ("name", if jTruthy (name.getD .null) then name.getD .null else .str camera.nickname),
    ("model", .str camera.product_model), ("manufacturer", .str "Wyze"),
    ("host", .str (camera.ip.getD "")), ("main_stream", .str (stream_url mac)),
    ("sub_stream", .str ""), ("snapshot_url", .str ""),
    ("capabilities", jcaps camera), ("online", .bool true),
    ("last_seen", .str now)]

/-- WyzePlugin.health (source lines 359-377). -/
def health (st : WyzePlugin) (now : String) : JVal :=
  match st.auth with
  | none =>
    .obj [("state", .str "unhealthy"), ("message", .str "Not authenticated to Wyze"),
      ("last_check", .str now), ("details", .obj [("authenticated", .bool false)])]
  | some auth =>
    if auth.auth_info.isSome then
      .obj [("state", .str "healthy"),
        ("message", .str (toString auth.cameras.length ++ " cameras available")),
        ("last_check", .str now),
        ("details", .obj [("cameras_total", .num (auth.cameras.length : Int)),
          ("authenticated", .bool true)])]
    else
      .obj [("state", .str "unhealthy"), ("message", .str "Not authenticated to Wyze"),
        ("last_check", .str now), ("details", .obj [("authenticated", .bool false)])]

/-- WyzePlugin.discover_cameras (source lines 379-395). -/
def discover_cameras (st : WyzePlugin) : List JVal :=
  match st.auth with
  | none => []
  | some auth => auth.cameras.map (fun p => discover_entry p.2)

/-- WyzePlugin.list_cameras (source lines 410-434). -/
def list_cameras (st : WyzePlugin) (now : String) : List JVal :=
  match st.auth with
  | none => []
  | some auth => auth.cameras.map (fun p => camera_entry now p.1 p.2)

/-- WyzePlugin.get_camera (source lines 436-442): linear scan of the
list_cameras result comparing the id field with the camera_id parameter.
Every entry carries an id field, so the cam[id] access cannot raise. -/
def get_camera (st : WyzePlugin) (now : String) (camera_id : Option JVal) : Option JVal :=
  (list_cameras st now).find? (fun cam => pyEqOpt (jget cam "id") camera_id)

/-- WyzePlugin.add_camera (source lines 444-469): a dict lookup by mac.  A
non-hashable mac value (list or dict) makes dict.get raise a TypeError, which
the dispatcher converts into a -32603 error; any other non-key value simply
misses. -/
def add_camera (st : WyzePlugin) (now : String) (mac name : Option JVal) :
    Except String (Option JVal) :=
  match st.auth with
  | none => .ok none
  | some auth =>
    match mac.getD .null with
    | .arr _ => .error ("unhashable type: \x27list\x27")
    | .obj _ => .error ("unhashable type: \x27dict\x27")
    | .str m =>
      match auth.cameras.lookup m with
      | none => .ok none
      | some camera => .ok (some (add_entry now m name camera))
    | _ => .ok none

/-- WyzePlugin.shutdown (source lines 353-357): sets running to False and
returns the ok object; it cannot raise. -/
def shutdown (st : WyzePlugin) : WyzePlugin × JVal :=
  ({ st with running := false }, .obj [("status", .str "ok")])

/-- WyzePlugin.initialize (source lines 335-351, named plugin_init here
because the source name is unavailable as a Lean identifier): stores the
config, then queries the TUTK library and logs in through the environment.
On a failed library download self.tutk_lib is set to None and a RuntimeError
is raised; on a login exception self.auth holds the partially mutated
WyzeAuth object.  save_config writes a file and is not observable here. -/
def plugin_init (env : Env) (st : WyzePlugin) (params : JVal) :
    WyzePlugin × Except String JVal :=
  let st1 : WyzePlugin := { st with config := params }
  match env.tutk_lib with
  | none => ({ st1 with tutk_lib := none }, .error "Failed to download TUTK library")
  | some lib =>
    match env.login with
    | .error pe => ({ st1 with tutk_lib := some lib, auth := some pe.2 }, .error pe.1)
    | .ok auth =>
      ({ st1 with tutk_lib := some lib, auth := some auth },
        .ok (.obj [("status", .str "ok"), ("cameras", .num (auth.cameras.length : Int))]))

/-- The body of one JSON-RPC response: a result member or an error member. -/
inductive RpcBody where
  | result (v : JVal)
  | error (code : Int) (message : String)
deriving DecidableEq

/-- One JSON-RPC response line; the constant jsonrpc 2.0 member is implicit. -/
structure Response where
  id : JVal
  body : RpcBody
deriving DecidableEq

/-- The dispatch chain of WyzePlugin.handle_request (source lines 493-523),
after the method / params / id extraction: the fixed if/elif chain, with the
surrounding try converting any handler exception into a -32603 error carrying
str(e). -/
def dispatch (env : Env) (now : String) (st : WyzePlugin)
    (method params req_id : JVal) : WyzePlugin × Response :=
  if method = .str "initialize" then
    match plugin_init env st params with
    | (st2, .ok v) => (st2, ⟨req_id, .result v⟩)
    | (st2, .error e) => (st2, ⟨req_id, .error (-32603) e⟩)
  else if method = .str "shutdown" then
    ((shutdown st).1, ⟨req_id, .result (shutdown st).2⟩)
  else if method = .str "health" then
    (st, ⟨req_id, .result (health st now)⟩)
  else if method = .str "discover_cameras" then
    (st, ⟨req_id, .result (.arr (discover_cameras st))⟩)
  else if method = .str "list_cameras" then
    (st, ⟨req_id, .result (.arr (list_cameras st now))⟩)
  else if method = .str "get_camera" then
    match pyParamGet params "camera_id" with
    | .error e => (st, ⟨req_id, .error (-32603) e⟩)
    | .ok camera_id =>
      match get_camera st now camera_id with
      | some cam => (st, ⟨req_id, .result cam⟩)
      | none => (st, ⟨req_id, .error (-32603) "Camera not found"⟩)
  else if method = .str "add_camera" then
    match pyParamGet params "mac" with
    | .error e => (st, ⟨req_id, .error (-32603) e⟩)
    | .ok mac =>
      match pyParamGet params "name" with
      | .error e => (st, ⟨req_id, .error (-32603) e⟩)
      | .ok name =>
        match add_camera st now mac name with
        | .error e => (st, ⟨req_id, .error (-32603) e⟩)
        | .ok (some cam) => (st, ⟨req_id, .result cam⟩)
        | .ok none =>
          (st, ⟨req_id, .error (-32603) ("Camera not found: " ++ pyStr (mac.getD .null))⟩)
  else
    (st, ⟨req_id, .error (-32601) ("Method not found: " ++ pyStr method)⟩)

/-- WyzePlugin.handle_request (source lines 482-525), on an already parsed
JSON object: extract method (default empty string), params (default empty
dict) and id (default None), then dispatch. -/
def handle_request (env : Env) (now : String) (st : WyzePlugin)
    (request : List (String × JVal)) : WyzePlugin × Response :=
  dispatch env now st ((request.lookup "method").getD (.str ""))
    ((request.lookup "params").getD (.obj [])) ((request.lookup "id").getD .null)

/-- One stdin line of run_jsonrpc after line.strip(): blank (skipped),
malformed (json.loads raises JSONDecodeError), or a parsed JSON value. -/
inductive Line where
  | blank
  | malformed
  | parsed (v : JVal)
deriving DecidableEq

/-- The response printed for a malformed line (source lines 554-558). -/
def parse_error_response : Response := ⟨.null, .error (-32700) "Parse error"⟩

/-- The stdin loop of run_jsonrpc (source lines 543-558) over a list of input
lines, threading the plugin state.  Returns the emitted response lines and
whether the loop ran to the end of input: a line holding valid JSON that is
not an object makes request.get raise an AttributeError that the except
json.JSONDecodeError clause does not catch, so the loop dies with no
response (the false flag). -/
def runLines (env : Env) (now : String) : WyzePlugin → List Line → List Response × Bool
  | _, [] => ([], true)
  | st, .blank :: rest => runLines env now st rest
  | st, .malformed :: rest =>
    let r := runLines env now st rest
    (parse_error_response :: r.1, r.2)
  | st, .parsed (.obj fields) :: rest =>
    let s := handle_request env now st fields
    let r := runLines env now s.1 rest
    (s.2 :: r.1, r.2)
  | _, .parsed _ :: _ => ([], false)


/-! Concrete sample data used by counterexamples and witnesses. -/

/-- A sample camera with every optional attribute present. -/
def camA : Camera :=
  { mac := "A1B2C3", nickname := "Porch", product_model := "WYZEC1",
    ip := some "10.0.0.5", audio := some true, firmware_ver := some "4.36.1" }

/-- A sample pan camera with every optional attribute absent. -/
def camB : Camera :=
  { mac := "D4E5F6", nickname := "Garage", product_model := "WYZECP1",
    ip := none, audio := none, firmware_ver := none }

/-- A logged-in auth object holding two cameras. -/
def authA : WyzeAuth :=
  { auth_info := some (), account := some (),
    cameras := [("A1B2C3", camA), ("D4E5F6", camB)] }

/-- A plugin state after a successful login. -/
def stA : WyzePlugin :=
  { config := .obj [], auth := some authA, tutk_lib := some "lib.amd64", running := true }

/-- A sample collaborator environment (its value is irrelevant to the
handlers other than initialize). -/
def env0 : Env :=
  { tutk_lib := none,
    login := .error ("login failed", { auth_info := none, account := none, cameras := [] }) }

/-- The guard of WyzePlugin.health: an auth object is present and its
auth_info credential is set. -/
def authenticated (st : WyzePlugin) : Bool :=
  match st.auth with
  | none => false
  | some auth => auth.auth_info.isSome

/-- C1 counterexample: in an authenticated state that knows two devices the
code has zero running bridges (no bridge exists at all), so the claimed
policy would give the degraded state; the code answers healthy, and its
details member carries a camera count and a flag, not per-bridge counts. -/
theorem C1_degraded_counterexample :
    jget (health stA "2026-01-01T00:00:00Z") "state" = some (.str "healthy") ∧
    jget (health stA "2026-01-01T00:00:00Z") "details" =
      some (.obj [("cameras_total", .num 2), ("authenticated", .bool true)]) :=
  ⟨rfl, rfl⟩

/-- C1 (amended): health never fails and is a pure function of current state:
it returns state unhealthy when not authenticated (no auth object or no
credential) and healthy otherwise, with the check time and, when healthy, the
total camera count; there is no degraded state and there are no per-bridge
counts. -/
theorem C1_health_amended (st : WyzePlugin) (now : String) :
    jget (health st now) "state" =
      some (.str (if authenticated st then "healthy" else "unhealthy")) ∧
    jget (health st now) "last_check" = some (.str now) ∧
    (∀ a, st.auth = some a → a.auth_info.isSome = true →
      jget (health st now) "details" =
        some (.obj [("cameras_total", .num (a.cameras.length : Int)),
          ("authenticated", .bool true)]) ∧
      jget (health st now) "message" =
        some (.str (toString a.cameras.length ++ " cameras available"))) ∧
    (authenticated st = false →
      jget (health st now) "details" = some (.obj [("authenticated", .bool false)])) := by
  obtain ⟨cfg, auth, lib, run⟩ := st
  rcases auth with _ | ⟨ai, acct, cams⟩
  · refine ⟨rfl, rfl, ?_, fun _ => rfl⟩
    intro a ha
    simp at ha
  · rcases ai with _ | u
    · refine ⟨rfl, rfl, ?_, fun _ => rfl⟩
      intro a ha hi
      injection ha with ha
      subst ha
      simp at hi
    · refine ⟨rfl, rfl, ?_, ?_⟩
      · intro a ha _
        injection ha with ha
        subst ha
        exact ⟨rfl, rfl⟩
      · intro hf
        simp [authenticated] at hf

/-- C1 witness: the amended statement applied at the sample logged-in state. -/
theorem C1_health_amended_witness :
    jget (health stA "T0") "details" =
      some (.obj [("cameras_total", .num 2), ("authenticated", .bool true)]) := by
  have h := (C1_health_amended stA "T0").2.2.1 authA rfl rfl
  simpa using h.1

/-- C2: an input line holding valid JSON that is not an object (here the line
42) makes request.get raise an AttributeError that the loop only guards with
except json.JSONDecodeError, so the loop dies, emits no response for that
line, and never answers later lines; the same later line alone is answered
normally. -/
theorem C2_nonobject_line_kills_loop :
    runLines env0 "T" WyzePlugin.start
        [Line.parsed (.num 42),
         Line.parsed (.obj [("method", .str "health"), ("id", .num 1)])] = ([], false) ∧
    runLines env0 "T" WyzePlugin.start
        [Line.parsed (.obj [("method", .str "health"), ("id", .num 1)])] =
      ([⟨.num 1, .result (health WyzePlugin.start "T")⟩], true) :=
  ⟨rfl, rfl⟩


/-- The method names recognized by the dispatch chain. -/
def knownMethodNames : List JVal :=
  [.str "initialize", .str "shutdown", .str "health", .str "discover_cameras",
   .str "list_cameras", .str "get_camera", .str "add_camera"]

/-- Any method value outside the dispatch chain falls through to the -32601
method-not-found error, echoing the id and leaving the state unchanged. -/
theorem dispatch_unknown (env : Env) (now : String) (st : WyzePlugin)
    (method params req_id : JVal) (h : method ∉ knownMethodNames) :
    dispatch env now st method params req_id =
      (st, ⟨req_id, .error (-32601) ("Method not found: " ++ pyStr method)⟩) := by
  simp only [knownMethodNames, List.mem_cons, List.not_mem_nil, or_false, not_or] at h
  obtain ⟨h1, h2, h3, h4, h5, h6, h7⟩ := h
  simp only [dispatch, if_neg h1, if_neg h2, if_neg h3, if_neg h4, if_neg h5, if_neg h6,
    if_neg h7]

/-- C3: a malformed input line is answered with id null and error code
-32700, a request whose method is unknown is answered with error code -32601
and the echoed id (null when absent), and in both cases the loop goes on to
accept and answer the remaining lines exactly as it would have without the
failing line. -/
theorem C3_parse_error_and_unknown_method (env : Env) (now : String) (st : WyzePlugin)
    (fields : List (String × JVal)) (rest : List Line)
    (h : (fields.lookup "method").getD (.str "") ∉ knownMethodNames) :
    runLines env now st (.malformed :: rest) =
      ((⟨.null, .error (-32700) "Parse error"⟩ : Response) :: (runLines env now st rest).1,
        (runLines env now st rest).2) ∧
    runLines env now st (.parsed (.obj fields) :: rest) =
      ((⟨(fields.lookup "id").getD .null,
          .error (-32601)
            ("Method not found: " ++ pyStr ((fields.lookup "method").getD (.str "")))⟩ :
            Response) :: (runLines env now st rest).1,
        (runLines env now st rest).2) := by
  constructor
  · rfl
  · have hd : handle_request env now st fields =
        (st, ⟨(fields.lookup "id").getD .null,
          .error (-32601)
            ("Method not found: " ++ pyStr ((fields.lookup "method").getD (.str "")))⟩) := by
      unfold handle_request
      exact dispatch_unknown env now st _ _ _ h
    simp only [runLines, hd]

/-- C3 witness: a bogus method name over the loop at the fresh state. -/
theorem C3_parse_error_and_unknown_method_witness :
    runLines env0 "T" WyzePlugin.start [.malformed] =
      ([⟨.null, .error (-32700) "Parse error"⟩], true) ∧
    runLines env0 "T" WyzePlugin.start
        [.parsed (.obj [("method", .str "bogus"), ("id", .num 7)])] =
      ([⟨.num 7, .error (-32601) "Method not found: bogus"⟩], true) := by
  have h := C3_parse_error_and_unknown_method env0 "T" WyzePlugin.start
    [("method", .str "bogus"), ("id", .num 7)] [] (by decide)
  exact ⟨h.1, h.2⟩

/-- C6: with no authentication state present, discover_cameras and
list_cameras return the empty list, and over JSON-RPC both requests are
answered with an empty array result, not an error. -/
theorem C6_empty_before_init (env : Env) (now : String) (st : WyzePlugin)
    (req_id : JVal) (h : st.auth = none) :
    discover_cameras st = [] ∧ list_cameras st now = [] ∧
    handle_request env now st [("method", .str "discover_cameras"), ("id", req_id)] =
      (st, ⟨req_id, .result (.arr [])⟩) ∧
    handle_request env now st [("method", .str "list_cameras"), ("id", req_id)] =
      (st, ⟨req_id, .result (.arr [])⟩) := by
  refine ⟨?_, ?_, ?_, ?_⟩
  · simp [discover_cameras, h]
  · simp [list_cameras, h]
  · simp +decide [handle_request, dispatch, discover_cameras, h, List.lookup]
  · simp +decide [handle_request, dispatch, list_cameras, h, List.lookup]

/-- C6 witness: the fresh plugin state. -/
theorem C6_empty_before_init_witness :
    handle_request env0 "T" WyzePlugin.start
        [("method", .str "list_cameras"), ("id", .num 1)] =
      (WyzePlugin.start, ⟨.num 1, .result (.arr [])⟩) :=
  (C6_empty_before_init env0 "T" WyzePlugin.start (.num 1) rfl).2.2.2

/-- C8: shutdown always returns the ok object and cannot throw, calling it
twice gives the ok object both times and the same state (idempotence), and a
shutdown request does not end the request loop: the remaining input lines
are still read and answered, until the input list is exhausted. -/
theorem C8_shutdown_idempotent (env : Env) (now : String) (st : WyzePlugin)
    (req_id : JVal) (rest : List Line) :
    (shutdown st).2 = .obj [("status", .str "ok")] ∧
    (shutdown (shutdown st).1).2 = .obj [("status", .str "ok")] ∧
    (shutdown (shutdown st).1).1 = (shutdown st).1 ∧
    runLines env now st (.parsed (.obj [("method", .str "shutdown"), ("id", req_id)]) :: rest) =
      ((⟨req_id, .result (.obj [("status", .str "ok")])⟩ : Response)
          :: (runLines env now (shutdown st).1 rest).1,
        (runLines env now (shutdown st).1 rest).2) :=
  ⟨rfl, rfl, rfl, rfl⟩

/-- The read-only query methods of the dispatch chain. -/
def readonlyMethodNames : List JVal :=
  [.str "health", .str "discover_cameras", .str "list_cameras",
   .str "get_camera", .str "add_camera"]

/-- Dispatching any read-only query leaves the state component untouched. -/
theorem dispatch_readonly (env : Env) (now : String) (st : WyzePlugin)
    (method params req_id : JVal) (h : method ∈ readonlyMethodNames) :
    (dispatch env now st method params req_id).1 = st := by
  have hni : ¬ method = .str "initialize" := by
    rintro rfl; revert h; decide
  have hns : ¬ method = .str "shutdown" := by
    rintro rfl; revert h; decide
  unfold dispatch
  rw [if_neg hni, if_neg hns]
  repeat first
  | rfl
  | split

/-- C9: the query and lookup operations health, discover_cameras,
list_cameras, get_camera and add_camera are read-only: handling any of them
returns the plugin state unchanged (configuration, auth data, camera map and
running flag included); in particular add_camera registers nothing. -/
theorem C9_queries_readonly (env : Env) (now : String) (st : WyzePlugin)
    (request : List (String × JVal))
    (h : (request.lookup "method").getD (.str "") ∈ readonlyMethodNames) :
    (handle_request env now st request).1 = st := by
  unfold handle_request
  exact dispatch_readonly env now st _ _ _ h

/-- C9 witness: an add_camera request against the logged-in sample state. -/
theorem C9_queries_readonly_witness :
    (handle_request env0 "T" stA
        [("method", .str "add_camera"),
         ("params", .obj [("mac", .str "A1B2C3"), ("name", .str "Front")]),
         ("id", .num 3)]).1 = stA :=
  C9_queries_readonly env0 "T" stA _ (by decide)


/-- Well-formedness of the camera dict as built by WyzeAuth.login: every
entry is stored under the mac of its camera (self.cameras[camera.mac] =
camera) and, being a dict, keys are unique. -/
def camerasWF (cams : List (String × Camera)) : Prop :=
  (∀ p ∈ cams, p.1 = p.2.mac) ∧ (cams.map Prod.fst).Nodup

instance camerasWF.instDecidable (cams : List (String × Camera)) :
    Decidable (camerasWF cams) := by
  unfold camerasWF
  infer_instance

/-- In a well-formed camera dict, the linear scan of get_camera over the
list_cameras entries finds exactly the entry stored under the given mac. -/
theorem find_entry_of_mem (now m : String) (c : Camera) (cams : List (String × Camera))
    (hWF : camerasWF cams) (hm : (m, c) ∈ cams) :
    (cams.map (fun p => camera_entry now p.1 p.2)).find?
        (fun cam => pyEqOpt (jget cam "id") (some (.str m))) =
      some (camera_entry now m c) := by
  induction cams with
  | nil => cases hm
  | cons hd tl ih =>
    obtain ⟨hkeys, hnd⟩ := hWF
    simp only [List.map_cons, List.nodup_cons] at hnd
    rcases List.mem_cons.mp hm with heq | htl
    · subst heq
      refine List.find?_cons_of_pos _ ?_
      have hmac : m = c.mac := hkeys (m, c) (List.mem_cons_self _ _)
      simp +decide [camera_entry, jget, pyEqOpt, List.lookup, hmac]
    · have hd1 : hd.1 = hd.2.mac := hkeys hd (List.mem_cons_self _ _)
      have hmem : m ∈ tl.map Prod.fst := List.mem_map.mpr ⟨(m, c), htl, rfl⟩
      have hne : ¬ hd.2.mac = m := by
        rw [← hd1]
        intro hcontra
        exact hnd.1 (hcontra ▸ hmem)
      rw [List.map_cons, List.find?_cons_of_neg]
      · exact ih ⟨fun p hp => hkeys p (List.mem_cons_of_mem _ hp), hnd.2⟩ htl
      · simp +decide [camera_entry, jget, pyEqOpt, List.lookup]
        exact hne

/-- When no stored camera has the given mac the scan finds nothing. -/
theorem find_entry_none (now m : String) (cams : List (String × Camera))
    (h : ∀ p ∈ cams, p.2.mac ≠ m) :
    (cams.map (fun p => camera_entry now p.1 p.2)).find?
        (fun cam => pyEqOpt (jget cam "id") (some (.str m))) = none := by
  rw [List.find?_eq_none]
  intro e he
  obtain ⟨p, hp, rfl⟩ := List.mem_map.mp he
  simp +decide [camera_entry, jget, pyEqOpt, List.lookup]
  exact h p hp

/-- Dict lookup in a well-formed camera dict returns the stored camera. -/
theorem lookup_of_memWF (cams : List (String × Camera)) (m : String) (c : Camera)
    (hWF : camerasWF cams) (hm : (m, c) ∈ cams) : cams.lookup m = some c := by
  induction cams with
  | nil => cases hm
  | cons hd tl ih =>
    obtain ⟨hkeys, hnd⟩ := hWF
    simp only [List.map_cons, List.nodup_cons] at hnd
    rcases List.mem_cons.mp hm with heq | htl
    · subst heq
      simp [List.lookup]
    · have hmem : m ∈ tl.map Prod.fst := List.mem_map.mpr ⟨(m, c), htl, rfl⟩
      have hne : (m == hd.1) = false := by
        rw [beq_eq_false_iff_ne]
        intro hcontra
        exact hnd.1 (hcontra ▸ hmem)
      simp only [List.lookup, hne]
      exact ih ⟨fun p hp => hkeys p (List.mem_cons_of_mem _ hp), hnd.2⟩ htl

/-- Dict lookup misses when no entry key equals the given mac. -/
theorem lookup_noneWF (cams : List (String × Camera)) (m : String)
    (h : ∀ p ∈ cams, p.1 ≠ m) : cams.lookup m = none := by
  induction cams with
  | nil => rfl
  | cons hd tl ih =>
    have hne : (m == hd.1) = false := by
      rw [beq_eq_false_iff_ne]
      intro hcontra
      exact h hd (List.mem_cons_self _ _) hcontra.symm
    simp only [List.lookup, hne]
    exact ih fun p hp => h p (List.mem_cons_of_mem _ hp)

/-- get_camera returns the entry of a stored camera. -/
theorem get_camera_of_mem (st : WyzePlugin) (a : WyzeAuth) (now m : String) (c : Camera)
    (hA : st.auth = some a) (hWF : camerasWF a.cameras) (hm : (m, c) ∈ a.cameras) :
    get_camera st now (some (.str m)) = some (camera_entry now m c) := by
  simp only [get_camera, list_cameras, hA]
  exact find_entry_of_mem now m c a.cameras hWF hm

/-- get_camera misses when the id belongs to no stored camera. -/
theorem get_camera_none (st : WyzePlugin) (now m : String)
    (h : ∀ a, st.auth = some a → ∀ p ∈ a.cameras, p.2.mac ≠ m) :
    get_camera st now (some (.str m)) = none := by
  cases hA : st.auth with
  | none => simp [get_camera, list_cameras, hA]
  | some a =>
    simp only [get_camera, list_cameras, hA]
    exact find_entry_none now m a.cameras (h a hA)

/-- add_camera returns the add_entry of a stored camera. -/
theorem add_camera_of_mem (st : WyzePlugin) (a : WyzeAuth) (now m : String) (c : Camera)
    (name : Option JVal) (hA : st.auth = some a) (hWF : camerasWF a.cameras)
    (hm : (m, c) ∈ a.cameras) :
    add_camera st now (some (.str m)) name = .ok (some (add_entry now m name c)) := by
  simp only [add_camera, hA, Option.getD_some]
  rw [lookup_of_memWF a.cameras m c hWF hm]

/-- C7: a get_camera request whose id is stored in the registry is answered
with that single device entry as the result; a request whose id belongs to
no stored camera is answered with the -32603 error reserved for a missing
resource, not a result. -/
theorem C7_get_camera_found_or_error (env : Env) (now : String) (st : WyzePlugin)
    (a : WyzeAuth) (m : String) (c : Camera) (req_id : JVal) :
    (st.auth = some a → camerasWF a.cameras → (m, c) ∈ a.cameras →
      handle_request env now st
          [("method", .str "get_camera"), ("params", .obj [("camera_id", .str m)]),
           ("id", req_id)] =
        (st, ⟨req_id, .result (camera_entry now m c)⟩)) ∧
    ((∀ a2, st.auth = some a2 → ∀ p ∈ a2.cameras, p.2.mac ≠ m) →
      handle_request env now st
          [("method", .str "get_camera"), ("params", .obj [("camera_id", .str m)]),
           ("id", req_id)] =
        (st, ⟨req_id, .error (-32603) "Camera not found"⟩)) := by
  constructor
  · intro hA hWF hm
    have hg := get_camera_of_mem st a now m c hA hWF hm
    simp +decide [handle_request, dispatch, pyParamGet, List.lookup, hg]
  · intro hnone
    have hg := get_camera_none st now m hnone
    simp +decide [handle_request, dispatch, pyParamGet, List.lookup, hg]

/-- C7 witness: a known and an unknown id against the sample state. -/
theorem C7_get_camera_found_or_error_witness :
    handle_request env0 "T" stA
        [("method", .str "get_camera"), ("params", .obj [("camera_id", .str "A1B2C3")]),
         ("id", .num 4)] =
      (stA, ⟨.num 4, .result (camera_entry "T" "A1B2C3" camA)⟩) ∧
    handle_request env0 "T" stA
        [("method", .str "get_camera"), ("params", .obj [("camera_id", .str "ZZZZ")]),
         ("id", .num 5)] =
      (stA, ⟨.num 5, .error (-32603) "Camera not found"⟩) := by
  constructor
  · exact (C7_get_camera_found_or_error env0 "T" stA authA "A1B2C3" camA (.num 4)).1
      rfl (by decide) (by decide)
  · refine (C7_get_camera_found_or_error env0 "T" stA authA "ZZZZ" camA (.num 5)).2 ?_
    intro a2 ha2
    injection ha2 with ha2
    subst ha2
    decide


/-- C4 counterexample: for the known device A1B2C3 the add_camera result
carries a manufacturer field that the get_camera result for the same id
lacks, so the two results do not have the same set of fields. -/
theorem C4_shape_counterexample :
    add_camera stA "T" (some (.str "A1B2C3")) none =
      .ok (some (add_entry "T" "A1B2C3" none camA)) ∧
    get_camera stA "T" (some (.str "A1B2C3")) = some (camera_entry "T" "A1B2C3" camA) ∧
    "manufacturer" ∈ jfields (add_entry "T" "A1B2C3" none camA) ∧
    "manufacturer" ∉ jfields (camera_entry "T" "A1B2C3" camA) :=
  ⟨rfl, rfl, by decide, by decide⟩

/-- C4 (amended): for every device known to the registry, add_camera with
its id returns the get_camera entry shape extended by exactly one extra
constant field manufacturer = Wyze (after model), all shared fields equal
except the display name, which is replaced by the name parameter when that
parameter is supplied and truthy; for an id stored under no camera it is
answered with a not-found error. -/
theorem C4_add_get_shape (env : Env) (now : String) (st : WyzePlugin) (a : WyzeAuth)
    (m : String) (c : Camera) (name : Option JVal) (req_id : JVal)
    (hA : st.auth = some a) (hWF : camerasWF a.cameras) :
    ((m, c) ∈ a.cameras →
      get_camera st now (some (.str m)) = some (camera_entry now m c) ∧
      add_camera st now (some (.str m)) name = .ok (some (add_entry now m name c)) ∧
      jfields (add_entry now m name c) =
        ["id", "plugin_id", "name", "model", "manufacturer", "host", "main_stream",
         "sub_stream", "snapshot_url", "capabilities", "online", "last_seen"] ∧
      jfields (camera_entry now m c) =
        ["id", "plugin_id", "name", "model", "host", "main_stream",
         "sub_stream", "snapshot_url", "capabilities", "online", "last_seen"] ∧
      jget (add_entry now m name c) "manufacturer" = some (.str "Wyze") ∧
      jget (add_entry now m name c) "name" =
        some (if jTruthy (name.getD .null) then name.getD .null else .str c.nickname) ∧
      (∀ f ∈ ["id", "plugin_id", "model", "host", "main_stream", "sub_stream",
          "snapshot_url", "capabilities", "online", "last_seen"],
        jget (add_entry now m name c) f = jget (camera_entry now m c) f)) ∧
    ((∀ p ∈ a.cameras, p.2.mac ≠ m) →
      handle_request env now st
          [("method", .str "add_camera"), ("params", .obj [("mac", .str m)]),
           ("id", req_id)] =
        (st, ⟨req_id, .error (-32603) ("Camera not found: " ++ m)⟩)) := by
  constructor
  · intro hm
    refine ⟨get_camera_of_mem st a now m c hA hWF hm,
      add_camera_of_mem st a now m c name hA hWF hm, rfl, rfl, rfl, rfl, ?_⟩
    intro f hf
    fin_cases hf <;> rfl
  · intro hmac
    have hkeys : ∀ p ∈ a.cameras, p.1 ≠ m := by
      intro p hp
      rw [hWF.1 p hp]
      exact hmac p hp
    have hadd : add_camera st now (some (.str m)) none = .ok none := by
      simp only [add_camera, hA, Option.getD_some]
      rw [lookup_noneWF a.cameras m hkeys]
    simp +decide [handle_request, dispatch, pyParamGet, List.lookup, hadd, pyStr]

/-- C4 witness: the amended statement applied at the sample state with a
supplied display name, and at an unknown id. -/
theorem C4_add_get_shape_witness :
    add_camera stA "T" (some (.str "A1B2C3")) (some (.str "Front")) =
      .ok (some (add_entry "T" "A1B2C3" (some (.str "Front")) camA)) ∧
    jget (add_entry "T" "A1B2C3" (some (.str "Front")) camA) "manufacturer" =
      some (.str "Wyze") ∧
    handle_request env0 "T" stA
        [("method", .str "add_camera"), ("params", .obj [("mac", .str "ZZZZ")]),
         ("id", .num 9)] =
      (stA, ⟨.num 9, .error (-32603) "Camera not found: ZZZZ"⟩) := by
  have h := (C4_add_get_shape env0 "T" stA authA "A1B2C3" camA (some (.str "Front"))
    (.num 9) rfl (by decide)).1 (by decide)
  have h2 := (C4_add_get_shape env0 "T" stA authA "ZZZZ" camA none (.num 9) rfl
    (by decide)).2 (by decide)
  exact ⟨h.2.1, h.2.2.2.2.1, h2⟩

/-- Modelled from the spec: the Device Registry port allocation.  The Stream
Bridge and its registry are not part of src (the single source file starts
no bridges and exposes exec stream URLs instead); per the spec the registry
walks the inventory in order and assigns each discovered device the port
base + ordinal index, one TCP listener per device. -/
def assign_ports (base : Nat) (devices : List Camera) : List (Camera × Nat) :=
  devices.enum.map (fun p => (p.2, base + p.1))

/-- C5: the assigned media ports are pairwise distinct, and the port of the
device at inventory position i is deterministically base + i. -/
theorem C5_ports_unique_deterministic (base : Nat) (devices : List Camera) :
    ((assign_ports base devices).map Prod.snd).Nodup ∧
    (∀ i, i < devices.length →
      ((assign_ports base devices).map Prod.snd)[i]? = some (base + i)) := by
  have hsnd : (assign_ports base devices).map Prod.snd =
      (List.range devices.length).map (fun i => base + i) := by
    unfold assign_ports
    rw [List.map_map, List.enum_eq_zip_range]
    have h1 : (Prod.snd ∘ fun p : Nat × Camera => (p.2, base + p.1)) =
        (fun i => base + i) ∘ Prod.fst := rfl
    rw [h1, ← List.map_map, List.map_fst_zip]
    simp
  rw [hsnd]
  constructor
  · exact (List.nodup_range _).map fun x y h => Nat.add_left_cancel h
  · intro i hi
    simp [List.getElem?_map, List.getElem?_range hi]

/-- C5 witness: two devices at base port 8554. -/
theorem C5_ports_unique_deterministic_witness :
    ((assign_ports 8554 [camA, camB]).map Prod.snd).Nodup ∧
    ((assign_ports 8554 [camA, camB]).map Prod.snd)[1]? = some 8555 := by
  have h := C5_ports_unique_deterministic 8554 [camA, camB]
  exact ⟨h.1, h.2 1 (by decide)⟩

/-- C10: every entry returned by list_cameras, and every successful
add_camera result, reports online constantly true, last_seen equal to the
current wall-clock time string, and empty sub_stream and snapshot_url,
whatever the actual device state. -/
theorem C10_constant_presence_fields (st : WyzePlugin) (now : String) :
    (∀ e ∈ list_cameras st now,
      jget e "online" = some (.bool true) ∧ jget e "last_seen" = some (.str now) ∧
      jget e "sub_stream" = some (.str "") ∧ jget e "snapshot_url" = some (.str "")) ∧
    (∀ mac name e, add_camera st now mac name = .ok (some e) →
      jget e "online" = some (.bool true) ∧ jget e "last_seen" = some (.str now) ∧
      jget e "sub_stream" = some (.str "") ∧ jget e "snapshot_url" = some (.str "")) := by
  constructor
  · intro e he
    cases hA : st.auth with
    | none => rw [list_cameras, hA] at he; cases he
    | some a =>
      rw [list_cameras, hA] at he
      obtain ⟨p, _, rfl⟩ := List.mem_map.mp he
      exact ⟨rfl, rfl, rfl, rfl⟩
  · intro mac name e hadd
    unfold add_camera at hadd
    split at hadd
    · exact absurd hadd (by simp)
    · split at hadd
      · exact absurd hadd (by simp)
      · exact absurd hadd (by simp)
      · split at hadd
        · exact absurd hadd (by simp)
        · simp only [Except.ok.injEq, Option.some.injEq] at hadd
          subst hadd
          exact ⟨rfl, rfl, rfl, rfl⟩
      · exact absurd hadd (by simp)

/-- C10 witness: a listed entry and an added entry at the sample state. -/
theorem C10_constant_presence_fields_witness :
    jget (camera_entry "T" "A1B2C3" camA) "online" = some (.bool true) ∧
    jget (add_entry "T" "D4E5F6" none camB) "last_seen" = some (.str "T") := by
  have h1 := (C10_constant_presence_fields stA "T").1 (camera_entry "T" "A1B2C3" camA)
    (by rw [list_cameras]; exact List.mem_cons_self _ _)
  have h2 := (C10_constant_presence_fields stA "T").2 (some (.str "D4E5F6")) none
    (add_entry "T" "D4E5F6" none camB) rfl
  exact ⟨h1.1, h2.2.1⟩

end Wyze
